import Mathlib

/-!
Verification development for the Zim-viewer server (src/main.rs).

The server keeps four pieces of process-wide state (struct `AppState`,
main.rs lines 24-30): a progress counter `processed_bytes`, the registry
`uploaded_files` (original filename to stored path), the active dataset
`current_zim_path`, and the dedup cache `file_cache` (content hash to
stored path).  The HTTP handlers `upload`, `article`, `search_articles`,
`browse_articles` and `clean_cache` are embedded below as pure state
transformers; the external zim archive library and the filesystem are
modelled as explicit collaborator parameters.
-/

namespace ZimViewer

/-- Bytes are modelled as natural numbers; a chunk is one piece of the
multipart body as delivered by the transport (main.rs lines 217-224). -/
abbrev Byte := Nat

/-- One uploaded chunk of bytes. -/
abbrev Chunk := List Byte

/-- Filesystem paths (`PathBuf`) are modelled as strings. -/
abbrev FsPath := String

/-- Model of Rust's `HashMap::insert`: replaces the value when the key is
already present, otherwise adds a fresh entry. -/
def insertA (k : String) (v : FsPath) : List (String × FsPath) → List (String × FsPath)
  | [] => [(k, v)]
  | (k', v') :: rest => if k' = k then (k, v) :: rest else (k', v') :: insertA k v rest

/-- Model of Rust's `HashMap::get`. -/
def lookupA (k : String) : List (String × FsPath) → Option FsPath
  | [] => none
  | (k', v') :: rest => if k' = k then some v' else lookupA k rest

/-- Shared server state, mirroring `AppState` (main.rs lines 24-30).
`processed_bytes` is the `AtomicU64`; the two maps are the `HashMap`s;
`current_zim_path` is the `Option<PathBuf>`. -/
structure AppState where
  processed_bytes : Nat
  uploaded_files : List (String × FsPath)
  current_zim_path : Option FsPath
  file_cache : List (String × FsPath)
deriving Repr, DecidableEq

/-- State built in `main` (main.rs lines 363-368): zero counter, empty maps,
no active dataset, and a `file_cache` populated by the startup scan of the
uploads directory. -/
def startupState (scanned : List (String × FsPath)) : AppState :=
  { processed_bytes := 0
    uploaded_files := []
    current_zim_path := none
    file_cache := scanned }

/-- Fresh-process state: startup with an empty uploads directory. -/
def initialAppState : AppState := startupState []

/-- HTTP status codes the handlers produce. -/
inductive HttpStatus where
  | ok
  | badRequest
  | notFound
  | internalServerError
deriving Repr, DecidableEq

/-- Plain-body HTTP response. -/
structure HttpResp where
  status : HttpStatus
  body : String
deriving Repr, DecidableEq

/-! ## Upload handler (main.rs lines 194-292) -/

/-- The uploads directory (main.rs line 200). -/
def uploadsDir : FsPath := "./uploads"

/-- Path a content hash is persisted at: `uploads_dir.join(format ... hash .zim)`
(main.rs lines 229-230). -/
def persistedPath (hash : String) : FsPath := uploadsDir ++ "/" ++ hash ++ ".zim"

/-- Incremental hashing of the chunk sequence: the `Sha256` hasher absorbs
each chunk in order (main.rs line 219) and is finalized once (line 228).
The hasher state is the byte sequence absorbed so far; `digest` is the
sha2 library's finalization of that exact sequence. -/
def hashChunks (digest : List Byte → String) (chunks : List Chunk) : String :=
  digest (chunks.foldl (fun acc c => acc ++ c) [])

/-- Bytes accumulated into `file_data` (main.rs lines 207, 220). -/
def accumulate (chunks : List Chunk) : List Byte :=
  chunks.foldl (fun acc c => acc ++ c) []

/-- Value of `processed_bytes` after `store(0)` followed by one `fetch_add`
of each chunk's length (main.rs lines 199, 221-223). -/
def processedTotal (chunks : List Chunk) : Nat :=
  chunks.foldl (fun p c => p + c.length) 0

/-- Successive values of `processed_bytes` during one ingestion: `0` right
after the reset, then one value per processed chunk. -/
def progressStates (chunks : List Chunk) : List Nat :=
  List.scanl (fun p c => p + c.length) 0 chunks

/-- JSON payload of a successful upload (`ZimResponse` + `AppMetadata`,
main.rs lines 32-43). -/
structure UploadResponse where
  message : String
  original_file_name : String
  persisted_file_path : FsPath
  article_count : Nat
deriving Repr, DecidableEq

/-- Result of one `upload` call: the new server state, the JSON response,
and the trace of file writes performed (`File::create` + `write_all`,
main.rs lines 262-265). -/
structure UploadResult where
  state : AppState
  response : UploadResponse
  writes : List (FsPath × List Byte)
deriving Repr, DecidableEq

/-- Embedding of the `upload` handler (main.rs lines 194-292).
`digest` is the sha2 finalization; `articleCount` models
`Archive::new(...).get_articlecount()` for a stored path, `none` meaning
the archive failed to open (in which case the handler uses `0`,
main.rs lines 241-247 and 267-273). -/
def upload (digest : List Byte → String) (articleCount : FsPath → Option Nat)
    (st : AppState) (filename : Option String) (chunks : List Chunk) : UploadResult :=
  let st := { st with processed_bytes := 0 }
  let file_data := accumulate chunks
  let st := { st with processed_bytes := processedTotal chunks }
  let original_file_name := filename.getD "unknown.zim"
  let hash := hashChunks digest chunks
  let persisted_path := persistedPath hash
  match lookupA hash st.file_cache with
  | some cached_path =>
      let article_count := (articleCount cached_path).getD 0
      { state := { st with current_zim_path := some cached_path }
        response :=
          { message := "File found in cache, no re-upload needed."
            original_file_name := original_file_name
            persisted_file_path := cached_path
            article_count := article_count }
        writes := [] }
  | none =>
      let article_count := (articleCount persisted_path).getD 0
      { state := { st with
          uploaded_files := insertA original_file_name persisted_path st.uploaded_files
          current_zim_path := some persisted_path
          file_cache := insertA hash persisted_path st.file_cache }
        response :=
          { message := "File uploaded successfully"
            original_file_name := original_file_name
            persisted_file_path := persisted_path
            article_count := article_count }
        writes := [(persisted_path, file_data)] }

/-! ## Article handler (main.rs lines 155-192) -/

/-- Model of one opened archive as seen by the `article` handler:
`entryByTitle` is `get_entry_bytitle_str` followed by `get_item(true)` and
`get_data`.  `none`: entry not found; `some none`: entry found but the
item or blob read failed; `some (some content)`: readable body. -/
structure ArchiveModel where
  entryByTitle : String → Option (Option String)

/-- Embedding of the `article` handler (main.rs lines 155-192).
`openArchive` models `Archive::new` on a path (`none` = open failure);
`decode` models `urlencoding::decode` (`none` = decode error, in which
case the raw string is used, main.rs lines 158-161). -/
def article (openArchive : FsPath → Option ArchiveModel)
    (decode : String → Option String)
    (st : AppState) (title_enc : String) : HttpResp :=
  let title := (decode title_enc).getD title_enc
  match st.current_zim_path with
  | none => ⟨.badRequest, "No ZIM loaded"⟩
  | some path =>
    match openArchive path with
    | none => ⟨.internalServerError, "Failed to open ZIM archive"⟩
    | some zim =>
      match zim.entryByTitle title with
      | none => ⟨.notFound, "Article not found"⟩
      | some none => ⟨.notFound, "Article found but failed to read content"⟩
      | some (some content) => ⟨.ok, content⟩

/-! ## Cache maintenance (main.rs lines 316-339) -/

/-- Outcome of `fs::remove_dir_all` on the uploads directory. -/
inductive DeleteOutcome where
  | success
  | failure (msg : String)
deriving Repr, DecidableEq

/-- Embedding of the `clean_cache` handler (main.rs lines 316-339).
`dirExists` models `uploads_dir.exists()`; `delete` the result of
`fs::remove_dir_all`. -/
def clean_cache (dirExists : Bool) (delete : DeleteOutcome) (st : AppState) :
    AppState × HttpResp :=
  if dirExists then
    match delete with
    | .success =>
        ({ st with uploaded_files := [], current_zim_path := none, file_cache := [] },
         ⟨.ok, "Cache cleaned successfully"⟩)
    | .failure e =>
        (st, ⟨.internalServerError, "Failed to clean cache: " ++ e⟩)
  else
    (st, ⟨.ok, "Cache directory not found, nothing to clean"⟩)

/-! ## Search (main.rs lines 61-111, 294-304) -/

/-- Collaborator model for `search_zim_file`: the zim library's archive,
searcher and query objects for one dataset path.  Each `*_err` field is
`some e` when the corresponding library call fails with error text `e`
(main.rs lines 67-78 and 85-91).  `results` is the collaborator's full
ranked result list for a query; each element is `Except.ok title` or an
entry-level failure (main.rs lines 96-107). -/
structure SearchCollab where
  open_err : Option String
  searcher_err : Option String
  query_err : String → Option String
  search_err : String → Option String
  get_results_err : String → Option String
  results : String → List (Except String String)

/-- Model of `search.get_results(start, count)` (main.rs lines 77, 90):
the slice `[start, start+count)` of the collaborator's ranked list, in
collaborator order, or the library's failure for that query. -/
def getResults (c : SearchCollab) (q : String) (start count : Nat) :
    Except String (List (Except String String)) :=
  match c.get_results_err q with
  | some e => .error e
  | none => .ok (((c.results q).drop start).take count)

/-- Title extraction performed by the final `filter_map` (main.rs lines
96-107): failed entries are logged and dropped. -/
def collectTitles (v : List (Except String String)) : List String :=
  v.filterMap (fun r => match r with | .ok t => some t | .error _ => none)

/-- Embedding of `search_zim_file` (main.rs lines 61-111).  `lower`
models Rust's `str::to_lowercase` (full Unicode lowercasing, line 84).
Returns the failure text, or the titles together with the trace of query
strings actually issued to the collaborator (one entry per search
performed). -/
def search_zim_file (lower : String → String) (c : SearchCollab) (query : String) :
    Except String (List String × List String) :=
  match c.open_err with
  | some e => .error ("Failed to open archive: " ++ e)
  | none =>
  match c.searcher_err with
  | some e => .error ("Failed to create searcher: " ++ e)
  | none =>
  match c.query_err query with
  | some e => .error ("Invalid query: " ++ e)
  | none =>
  match c.search_err query with
  | some e => .error ("Search failed: " ++ e)
  | none =>
  match getResults c query 0 50 with
  | .error e => .error ("Failed to get results: " ++ e)
  | .ok result_vec =>
    if result_vec.isEmpty then
      let lower_query := lower query
      match c.query_err lower_query with
      | some e => .error ("Invalid query: " ++ e)
      | none =>
      match c.search_err lower_query with
      | some e => .error ("Search failed: " ++ e)
      | none =>
      match getResults c lower_query 0 50 with
      | .error e => .error ("Failed to get results: " ++ e)
      | .ok result_vec2 => .ok (collectTitles result_vec2, [query, lower_query])
    else
      .ok (collectTitles result_vec, [query])

/-- Response of the JSON handlers: a payload on success, or a status plus
body text on failure. -/
inductive ApiResp (α : Type) where
  | ok (value : α)
  | failed (status : HttpStatus) (body : String)
deriving Repr, DecidableEq

/-- Embedding of the `search_articles` handler (main.rs lines 294-304):
runs `search_zim_file` on the blocking pool and converts any failure into
an internal-server-error response carrying the failure text. -/
def search_articles (lower : String → String) (c : SearchCollab) (query : String) :
    ApiResp (List String) :=
  match search_zim_file lower c query with
  | .ok (titles, _) => .ok titles
  | .error e => .failed .internalServerError e

/-! ## Browse (main.rs lines 113-131, 306-314) -/

/-- Collaborator model for `get_all_articles`: `open_err` is the
`Archive::new` failure text; `articlecount` is `get_articlecount`;
`entryAt idx` is the `get_entry_bytitle_index` / `get_item(false)` /
`get_mimetype` chain on index `idx`, yielding the mimetype and title when
every step succeeds (main.rs lines 118-128). -/
structure BrowseCollab where
  open_err : Option String
  articlecount : Nat
  entryAt : Nat → Option (String × String)

/-- Embedding of `get_all_articles` (main.rs lines 113-131): collects the
title of every index whose entry chain succeeds with a `text/html`
mimetype; failing indices are silently skipped. -/
def get_all_articles (c : BrowseCollab) : Except String (List String) :=
  match c.open_err with
  | some e => .error ("failed to open zim file: " ++ e)
  | none =>
    .ok ((List.range c.articlecount).filterMap (fun idx =>
      match c.entryAt idx with
      | some (mimetype, title) =>
          if mimetype.startsWith "text/html" then some title else none
      | none => none))

/-- Embedding of the `browse_articles` handler (main.rs lines 306-314). -/
def browse_articles (c : BrowseCollab) : ApiResp (List String) :=
  match get_all_articles c with
  | .ok titles => .ok titles
  | .error e => .failed .internalServerError e

/-! ## Concrete collaborator instances used for witnesses and counterexamples -/

/-- Concrete digest distinguishing the byte sequence `[0]` from all others. -/
def digestAB (l : List Byte) : String := if l = [0] then "A" else "B"

/-- Concrete metadata collaborator whose archive never opens (the handler
then reports `article_count = 0`). -/
def acNone : FsPath → Option Nat := fun _ => none

/-- Concrete lowercasing function used in search witnesses. -/
def lowerQ : String → String := fun _ => "q"

/-- Concrete search collaborator that succeeds everywhere and finds
nothing for any query. -/
def cSearchEmpty : SearchCollab :=
  ⟨none, none, fun _ => none, fun _ => none, fun _ => none, fun _ => []⟩

/-- Concrete search collaborator that succeeds everywhere and returns one
readable result titled `"T"` for any query. -/
def cSearchOne : SearchCollab :=
  ⟨none, none, fun _ => none, fun _ => none, fun _ => none, fun _ => [.ok "T"]⟩

/-- Concrete search collaborator whose only result for any query is an
entry-level failure (the entry exists in the index but cannot be read). -/
def cEntryFail : SearchCollab :=
  ⟨none, none, fun _ => none, fun _ => none, fun _ => none,
   fun _ => [.error "entry read failed"]⟩

/-- Concrete search collaborator whose archive fails to open. -/
def cOpenFail : SearchCollab :=
  ⟨some "io error", none, fun _ => none, fun _ => none, fun _ => none, fun _ => []⟩

/-- Concrete search collaborator that rejects every query string. -/
def cQueryFail : SearchCollab :=
  ⟨none, none, fun _ => some "syntax", fun _ => none, fun _ => none, fun _ => []⟩

/-- Concrete browse collaborator whose archive fails to open. -/
def bOpenFail : BrowseCollab := ⟨some "io error", 0, fun _ => none⟩

/-! ## Helper lemmas -/

theorem foldl_append_eq (l : List Chunk) (acc : List Byte) :
    l.foldl (fun a c => a ++ c) acc = acc ++ l.flatten := by
  induction l generalizing acc with
  | nil => simp
  | cons c rest ih => simp [ih]

/-- Lemma: the bytes accumulated chunk by chunk are exactly the
concatenation of the chunks. -/
theorem accumulate_eq_flatten (chunks : List Chunk) :
    accumulate chunks = chunks.flatten := by
  simp [accumulate, foldl_append_eq]

/-- Lemma: the incremental hash equals the digest of the concatenation. -/
theorem hashChunks_eq_digest_flatten (digest : List Byte → String) (chunks : List Chunk) :
    hashChunks digest chunks = digest chunks.flatten := by
  simp [hashChunks, foldl_append_eq]

theorem foldl_add_length (l : List Chunk) (n : Nat) :
    l.foldl (fun p c => p + c.length) n = n + l.flatten.length := by
  induction l generalizing n with
  | nil => simp
  | cons c rest ih => simp [ih, Nat.add_assoc]

/-- Lemma: the counter value after all chunk additions is the total byte
count of the upload. -/
theorem processedTotal_eq (chunks : List Chunk) :
    processedTotal chunks = chunks.flatten.length := by
  simp [processedTotal, foldl_add_length]

/-- Lemma: looking up the key just inserted finds the inserted value. -/
theorem lookupA_insertA_self (k : String) (v : FsPath) (m : List (String × FsPath)) :
    lookupA k (insertA k v m) = some v := by
  induction m with
  | nil => simp [insertA, lookupA]
  | cons p rest ih =>
    obtain ⟨k', v'⟩ := p
    by_cases h : k' = k
    · simp [insertA, lookupA, h]
    · simp [insertA, lookupA, h, ih]

/-- Equation lemma for `upload` on the cache-hit path (main.rs 234-260). -/
theorem upload_hit_eq (digest : List Byte → String) (ac : FsPath → Option Nat)
    (st : AppState) (fn : Option String) (chunks : List Chunk) (cached : FsPath)
    (h : lookupA (hashChunks digest chunks) st.file_cache = some cached) :
    upload digest ac st fn chunks =
      { state := { st with
          processed_bytes := processedTotal chunks
          current_zim_path := some cached }
        response := { message := "File found in cache, no re-upload needed."
                      original_file_name := fn.getD "unknown.zim"
                      persisted_file_path := cached
                      article_count := (ac cached).getD 0 }
        writes := [] } := by
  simp only [upload, h]

/-- Equation lemma for `upload` on the cache-miss path (main.rs 262-291). -/
theorem upload_miss_eq (digest : List Byte → String) (ac : FsPath → Option Nat)
    (st : AppState) (fn : Option String) (chunks : List Chunk)
    (h : lookupA (hashChunks digest chunks) st.file_cache = none) :
    upload digest ac st fn chunks =
      { state := { st with
          processed_bytes := processedTotal chunks
          uploaded_files := insertA (fn.getD "unknown.zim")
            (persistedPath (hashChunks digest chunks)) st.uploaded_files
          current_zim_path := some (persistedPath (hashChunks digest chunks))
          file_cache := insertA (hashChunks digest chunks)
            (persistedPath (hashChunks digest chunks)) st.file_cache }
        response := { message := "File uploaded successfully"
                      original_file_name := fn.getD "unknown.zim"
                      persisted_file_path := persistedPath (hashChunks digest chunks)
                      article_count := (ac (persistedPath (hashChunks digest chunks))).getD 0 }
        writes := [(persistedPath (hashChunks digest chunks), accumulate chunks)] } := by
  simp only [upload, h]

theorem scanl_add_length_head (b : Nat) (l : List Chunk) :
    (List.scanl (fun p c => p + c.length) b l).head? = some b := by
  cases l <;> simp [List.scanl]

theorem scanl_add_length_chain (l : List Chunk) (b : Nat) :
    List.Chain' (· ≤ ·) (List.scanl (fun p c => p + c.length) b l) := by
  induction l generalizing b with
  | nil => simp [List.scanl]
  | cons c rest ih =>
    rw [List.scanl_cons, List.singleton_append, List.chain'_cons']
    refine ⟨?_, ih _⟩
    intro y hy
    rw [scanl_add_length_head] at hy
    simp only [Option.mem_def, Option.some.injEq] at hy
    subst hy
    exact Nat.le_add_right _ _

theorem scanl_add_length_last (l : List Chunk) (b : Nat) :
    (List.scanl (fun p c => p + c.length) b l).getLast? =
      some (l.foldl (fun p c => p + c.length) b) := by
  induction l generalizing b with
  | nil => simp [List.scanl]
  | cons c rest ih =>
    rw [List.scanl_cons, List.singleton_append, List.getLast?_cons, ih]
    simp

/-- Lemma: a successful `get_results(start, count)` call returns at most
`count` entries. -/
theorem getResults_ok_length_le (c : SearchCollab) (q : String) (start count : Nat)
    (v : List (Except String String)) (h : getResults c q start count = .ok v) :
    v.length ≤ count := by
  unfold getResults at h
  cases hg : c.get_results_err q <;> rw [hg] at h
  · injection h with h'
    subst h'
    exact List.length_take_le _ _
  · cases h

/-- Lemma: dropping the failed entries never grows the result list. -/
theorem collectTitles_length_le (v : List (Except String String)) :
    (collectTitles v).length ≤ v.length :=
  List.length_filterMap_le _ _

/-- Lemma: any successful `search_zim_file` call returns at most 50
titles. -/
theorem search_zim_file_ok_length_le (lower : String → String) (c : SearchCollab)
    (q : String) (titles trace : List String)
    (h : search_zim_file lower c q = .ok (titles, trace)) :
    titles.length ≤ 50 := by
  unfold search_zim_file at h
  cases hoe : c.open_err with
  | some e => rw [hoe] at h; exact Except.noConfusion h
  | none =>
  rw [hoe] at h
  cases hse : c.searcher_err with
  | some e => rw [hse] at h; exact Except.noConfusion h
  | none =>
  rw [hse] at h
  cases hq1 : c.query_err q with
  | some e => rw [hq1] at h; exact Except.noConfusion h
  | none =>
  rw [hq1] at h
  cases hs1 : c.search_err q with
  | some e => rw [hs1] at h; exact Except.noConfusion h
  | none =>
  rw [hs1] at h
  cases hg1 : getResults c q 0 50 with
  | error e => rw [hg1] at h; exact Except.noConfusion h
  | ok v =>
  rw [hg1] at h
  cases hv : v.isEmpty with
  | false =>
      simp only [hv, Bool.false_eq_true, if_false, Except.ok.injEq, Prod.mk.injEq] at h
      obtain ⟨h1, h2⟩ := h
      subst h1
      exact le_trans (collectTitles_length_le _) (getResults_ok_length_le _ _ _ _ _ hg1)
  | true =>
  simp only [hv, if_true] at h
  cases hq2 : c.query_err (lower q) with
  | some e => rw [hq2] at h; exact Except.noConfusion h
  | none =>
  rw [hq2] at h
  cases hs2 : c.search_err (lower q) with
  | some e => rw [hs2] at h; exact Except.noConfusion h
  | none =>
  rw [hs2] at h
  cases hg2 : getResults c (lower q) 0 50 with
  | error e => rw [hg2] at h; exact Except.noConfusion h
  | ok v2 =>
  rw [hg2] at h
  simp only [Except.ok.injEq, Prod.mk.injEq] at h
  obtain ⟨h1, h2⟩ := h
  subst h1
  exact le_trans (collectTitles_length_le _) (getResults_ok_length_le _ _ _ _ _ hg2)

/-- Lemma: when every collaborator step succeeds and the first search
finds nothing, `search_zim_file` performs exactly one further search, on
the lower-cased query, and returns its capped titles. -/
theorem search_zim_file_empty_retry_eq (lower : String → String) (c : SearchCollab)
    (q : String)
    (h1 : c.open_err = none) (h2 : c.searcher_err = none)
    (h3 : c.query_err q = none) (h4 : c.search_err q = none)
    (h5 : c.get_results_err q = none) (h6 : c.results q = [])
    (h7 : c.query_err (lower q) = none) (h8 : c.search_err (lower q) = none)
    (h9 : c.get_results_err (lower q) = none) :
    search_zim_file lower c q =
      .ok (collectTitles ((c.results (lower q)).take 50), [q, lower q]) := by
  unfold search_zim_file getResults
  rw [h1, h2, h3, h4, h5, h6]
  simp [h7, h8, h9]

/-- Lemma: when every collaborator step succeeds and the first search
finds something, `search_zim_file` does not retry and returns the capped
titles of the first search. -/
theorem search_zim_file_nonempty_eq (lower : String → String) (c : SearchCollab)
    (q : String)
    (h1 : c.open_err = none) (h2 : c.searcher_err = none)
    (h3 : c.query_err q = none) (h4 : c.search_err q = none)
    (h5 : c.get_results_err q = none) (h6 : c.results q ≠ []) :
    search_zim_file lower c q =
      .ok (collectTitles ((c.results q).take 50), [q]) := by
  unfold search_zim_file getResults
  rw [h1, h2, h3, h4, h5]
  simp [List.isEmpty_iff, List.take_eq_nil_iff, h6]

/-- Lemma: the archive-open failure text and the query-syntax failure
text are never the same string, whatever the collaborator errors say. -/
theorem open_query_msg_ne (a b : String) :
    ("Failed to open archive: " ++ a) ≠ ("Invalid query: " ++ b) := by
  obtain ⟨la⟩ := a
  obtain ⟨lb⟩ := b
  intro h
  have hd := congrArg String.data h
  simp [String.append] at hd

/-! ## Claim theorems -/

/-- C1: re-uploading already stored content performs zero storage writes,
returns the "found in cache" message, and leaves `current_zim_path` naming
the same stored path that the first upload produced. -/
theorem upload_second_upload_hits_cache
    (digest : List Byte → String) (ac : FsPath → Option Nat)
    (st : AppState) (fn1 fn2 : Option String) (chunks1 chunks2 : List Chunk)
    (hsame : chunks1.flatten = chunks2.flatten) :
    (upload digest ac (upload digest ac st fn1 chunks1).state fn2 chunks2).writes = [] ∧
    (upload digest ac (upload digest ac st fn1 chunks1).state fn2 chunks2).response.message
      = "File found in cache, no re-upload needed." ∧
    (upload digest ac (upload digest ac st fn1 chunks1).state fn2 chunks2).state.current_zim_path
      = some (upload digest ac st fn1 chunks1).response.persisted_file_path ∧
    (upload digest ac (upload digest ac st fn1 chunks1).state fn2 chunks2).response.persisted_file_path
      = (upload digest ac st fn1 chunks1).response.persisted_file_path := by
  have hhash : hashChunks digest chunks2 = hashChunks digest chunks1 := by
    rw [hashChunks_eq_digest_flatten, hashChunks_eq_digest_flatten, hsame]
  cases h1 : lookupA (hashChunks digest chunks1) st.file_cache with
  | some cached =>
      rw [upload_hit_eq digest ac st fn1 chunks1 cached h1]
      have h2 : lookupA (hashChunks digest chunks2)
          ({ st with
              processed_bytes := processedTotal chunks1
              current_zim_path := some cached } : AppState).file_cache = some cached := by
        rw [hhash]; exact h1
      rw [upload_hit_eq digest ac _ fn2 chunks2 cached h2]
      exact ⟨rfl, rfl, rfl, rfl⟩
  | none =>
      rw [upload_miss_eq digest ac st fn1 chunks1 h1]
      have h2 : lookupA (hashChunks digest chunks2)
          ({ st with
              processed_bytes := processedTotal chunks1
              uploaded_files := insertA (fn1.getD "unknown.zim")
                (persistedPath (hashChunks digest chunks1)) st.uploaded_files
              current_zim_path := some (persistedPath (hashChunks digest chunks1))
              file_cache := insertA (hashChunks digest chunks1)
                (persistedPath (hashChunks digest chunks1)) st.file_cache } :
            AppState).file_cache = some (persistedPath (hashChunks digest chunks1)) := by
        rw [hhash]; exact lookupA_insertA_self _ _ _
      rw [upload_hit_eq digest ac _ fn2 chunks2 _ h2]
      exact ⟨rfl, rfl, rfl, rfl⟩

/-- Witness for C1: uploading the single chunk `[0]` twice from a fresh
state hits the cache the second time. -/
theorem upload_second_upload_hits_cache_witness :
    (upload digestAB acNone
        (upload digestAB acNone initialAppState (some "a.zim") [[0]]).state
        (some "b.zim") [[0]]).writes = [] ∧
    (upload digestAB acNone
        (upload digestAB acNone initialAppState (some "a.zim") [[0]]).state
        (some "b.zim") [[0]]).response.message
      = "File found in cache, no re-upload needed." ∧
    (upload digestAB acNone
        (upload digestAB acNone initialAppState (some "a.zim") [[0]]).state
        (some "b.zim") [[0]]).state.current_zim_path
      = some (upload digestAB acNone initialAppState (some "a.zim") [[0]]).response.persisted_file_path ∧
    (upload digestAB acNone
        (upload digestAB acNone initialAppState (some "a.zim") [[0]]).state
        (some "b.zim") [[0]]).response.persisted_file_path
      = (upload digestAB acNone initialAppState (some "a.zim") [[0]]).response.persisted_file_path :=
  upload_second_upload_hits_cache digestAB acNone initialAppState
    (some "a.zim") (some "b.zim") [[0]] [[0]] rfl

/-- C4: `processed_bytes` is `0` on a fresh process, is reset to `0` at
the start of an ingestion, grows by exactly each chunk's length (hence is
non-decreasing along the observed progress states), and equals the total
byte count `N` once the last chunk is processed. -/
theorem progress_counter_spec :
    (∀ scanned, (startupState scanned).processed_bytes = 0) ∧
    ∀ chunks : List Chunk,
      (progressStates chunks).head? = some 0 ∧
      List.Chain' (· ≤ ·) (progressStates chunks) ∧
      (progressStates chunks).getLast? = some chunks.flatten.length ∧
      ∀ (digest : List Byte → String) (ac : FsPath → Option Nat)
        (st : AppState) (fn : Option String),
        (upload digest ac st fn chunks).state.processed_bytes = chunks.flatten.length := by
  refine ⟨fun _ => rfl, fun chunks =>
    ⟨scanl_add_length_head 0 chunks, scanl_add_length_chain chunks 0, ?_, ?_⟩⟩
  · rw [progressStates, scanl_add_length_last]
    rw [show chunks.foldl (fun p c => p + c.length) 0 = processedTotal chunks from rfl,
      processedTotal_eq]
  · intro digest ac st fn
    cases h : lookupA (hashChunks digest chunks) st.file_cache with
    | some cached =>
        rw [upload_hit_eq digest ac st fn chunks cached h]
        exact processedTotal_eq chunks
    | none =>
        rw [upload_miss_eq digest ac st fn chunks h]
        exact processedTotal_eq chunks

/-- C8: the incremental hash is independent of chunk boundaries — folding
any partition of a byte sequence `B` into the hasher and finalizing gives
the same content hash as hashing `B` in one shot — and the empty input
has a defined digest. -/
theorem hash_chunk_boundary_independence (digest : List Byte → String)
    (B : List Byte) (chunks : List Chunk) (hpart : chunks.flatten = B) :
    hashChunks digest chunks = hashChunks digest [B] ∧
    hashChunks digest [] = digest [] := by
  constructor
  · rw [hashChunks_eq_digest_flatten, hashChunks_eq_digest_flatten, hpart]
    simp
  · simp [hashChunks]

/-- Witness for C8: splitting `[0, 1, 2]` as `[[0], [1, 2]]` yields the
same hash as the one-shot hash. -/
theorem hash_chunk_boundary_independence_witness :
    hashChunks digestAB [[0], [1, 2]] = hashChunks digestAB [[0, 1, 2]] ∧
    hashChunks digestAB [] = digestAB [] :=
  hash_chunk_boundary_independence digestAB [0, 1, 2] [[0], [1, 2]] rfl

/-- C9: on the cache-hit path, `uploaded_files` is left completely
unchanged (and so is `file_cache`), even though `current_zim_path` is
updated to the cached stored path. -/
theorem upload_hit_registry_frame
    (digest : List Byte → String) (ac : FsPath → Option Nat)
    (st : AppState) (fn : Option String) (chunks : List Chunk) (cached : FsPath)
    (h : lookupA (hashChunks digest chunks) st.file_cache = some cached) :
    (upload digest ac st fn chunks).state.uploaded_files = st.uploaded_files ∧
    (upload digest ac st fn chunks).state.current_zim_path = some cached ∧
    (upload digest ac st fn chunks).state.file_cache = st.file_cache := by
  rw [upload_hit_eq digest ac st fn chunks cached h]
  exact ⟨rfl, rfl, rfl⟩

/-- Witness for C9: a state whose cache already holds hash `"A"` is hit
by uploading `[0]`; the registry is untouched. -/
theorem upload_hit_registry_frame_witness :
    (upload digestAB acNone ⟨0, [("old.zim", "/old")], none, [("A", "/cached.zim")]⟩
        (some "f.zim") [[0]]).state.uploaded_files = [("old.zim", "/old")] ∧
    (upload digestAB acNone ⟨0, [("old.zim", "/old")], none, [("A", "/cached.zim")]⟩
        (some "f.zim") [[0]]).state.current_zim_path = some "/cached.zim" ∧
    (upload digestAB acNone ⟨0, [("old.zim", "/old")], none, [("A", "/cached.zim")]⟩
        (some "f.zim") [[0]]).state.file_cache = [("A", "/cached.zim")] :=
  upload_hit_registry_frame digestAB acNone
    ⟨0, [("old.zim", "/old")], none, [("A", "/cached.zim")]⟩
    (some "f.zim") [[0]] "/cached.zim" (by decide)

/-- C2 counterexample: two uploads with different contents (distinct
hashes `"A"` and `"B"`) but the same original filename `"a.zim"` leave
`uploaded_files` with exactly one entry, not two: the `HashMap::insert`
keyed by filename (main.rs line 277) overwrites the first entry. -/
theorem upload_same_filename_registry_cex :
    hashChunks digestAB [[0]] ≠ hashChunks digestAB [[1]] ∧
    (upload digestAB acNone
        (upload digestAB acNone initialAppState (some "a.zim") [[0]]).state
        (some "a.zim") [[1]]).state.uploaded_files.length = 1 := by
  constructor
  · decide
  · rfl

/-- C2 (amended): two uploads with different contents and the same
original filename produce two distinct `file_cache` entries, but
`uploaded_files` ends with exactly one entry for that filename — the
second upload overwrites the first upload's registry entry with the
second stored path. -/
theorem upload_same_filename_two_contents
    (digest : List Byte → String) (ac : FsPath → Option Nat) (fn : String)
    (B1 B2 : List Chunk)
    (hne : hashChunks digest B1 ≠ hashChunks digest B2) :
    (upload digest ac (upload digest ac initialAppState (some fn) B1).state
        (some fn) B2).state.file_cache.length = 2 ∧
    lookupA (hashChunks digest B1)
        (upload digest ac (upload digest ac initialAppState (some fn) B1).state
          (some fn) B2).state.file_cache = some (persistedPath (hashChunks digest B1)) ∧
    lookupA (hashChunks digest B2)
        (upload digest ac (upload digest ac initialAppState (some fn) B1).state
          (some fn) B2).state.file_cache = some (persistedPath (hashChunks digest B2)) ∧
    (upload digest ac (upload digest ac initialAppState (some fn) B1).state
        (some fn) B2).state.uploaded_files = [(fn, persistedPath (hashChunks digest B2))] := by
  have h1 : lookupA (hashChunks digest B1) initialAppState.file_cache = none := rfl
  rw [upload_miss_eq digest ac initialAppState (some fn) B1 h1]
  have h2 : lookupA (hashChunks digest B2)
      ({ initialAppState with
          processed_bytes := processedTotal B1
          uploaded_files := insertA ((some fn).getD "unknown.zim")
            (persistedPath (hashChunks digest B1)) initialAppState.uploaded_files
          current_zim_path := some (persistedPath (hashChunks digest B1))
          file_cache := insertA (hashChunks digest B1)
            (persistedPath (hashChunks digest B1)) initialAppState.file_cache } :
        AppState).file_cache = none := by
    simp only [initialAppState, startupState, insertA, lookupA]
    simp [hne]
  rw [upload_miss_eq digest ac _ (some fn) B2 h2]
  refine ⟨?_, ?_, ?_, ?_⟩
  · simp [initialAppState, startupState, insertA, hne]
  · simp [initialAppState, startupState, insertA, lookupA, hne]
  · simp [initialAppState, startupState, insertA, lookupA, hne]
  · simp [initialAppState, startupState, insertA]

/-- Witness for the amended C2: contents `[0]` and `[1]` (hashes `"A"`
and `"B"`) uploaded under the shared filename `"a.zim"`. -/
theorem upload_same_filename_two_contents_witness :
    (upload digestAB acNone
        (upload digestAB acNone initialAppState (some "a.zim") [[0]]).state
        (some "a.zim") [[1]]).state.file_cache.length = 2 ∧
    lookupA (hashChunks digestAB [[0]])
        (upload digestAB acNone
          (upload digestAB acNone initialAppState (some "a.zim") [[0]]).state
          (some "a.zim") [[1]]).state.file_cache
      = some (persistedPath (hashChunks digestAB [[0]])) ∧
    lookupA (hashChunks digestAB [[1]])
        (upload digestAB acNone
          (upload digestAB acNone initialAppState (some "a.zim") [[0]]).state
          (some "a.zim") [[1]]).state.file_cache
      = some (persistedPath (hashChunks digestAB [[1]])) ∧
    (upload digestAB acNone
        (upload digestAB acNone initialAppState (some "a.zim") [[0]]).state
        (some "a.zim") [[1]]).state.uploaded_files
      = [("a.zim", persistedPath (hashChunks digestAB [[1]]))] :=
  upload_same_filename_two_contents digestAB acNone "a.zim" [[0]] [[1]] (by decide)

/-- C5: `GET /article/...` yields 400 (a client error) when no dataset is
active, 404 when the archive opens but the title is not found, and 500
when opening the archive fails. -/
theorem article_status_spec :
    (∀ (openA : FsPath → Option ArchiveModel) (decode : String → Option String)
       (pb : Nat) (uf fc : List (String × FsPath)) (t : String),
       article openA decode ⟨pb, uf, none, fc⟩ t = ⟨.badRequest, "No ZIM loaded"⟩) ∧
    (∀ (openA : FsPath → Option ArchiveModel) (decode : String → Option String)
       (st : AppState) (t path : String),
       st.current_zim_path = some path → openA path = none →
       article openA decode st t = ⟨.internalServerError, "Failed to open ZIM archive"⟩) ∧
    (∀ (openA : FsPath → Option ArchiveModel) (decode : String → Option String)
       (st : AppState) (t path : String) (zim : ArchiveModel),
       st.current_zim_path = some path → openA path = some zim →
       zim.entryByTitle ((decode t).getD t) = none →
       article openA decode st t = ⟨.notFound, "Article not found"⟩) := by
  refine ⟨fun _ _ _ _ _ _ => rfl, ?_, ?_⟩
  · intro openA decode st t path hcur hopen
    simp [article, hcur, hopen]
  · intro openA decode st t path zim hcur hopen hentry
    simp [article, hcur, hopen, hentry]

/-- Witness for C5: a concrete always-failing opener gives 500, and a
concrete archive with no entries gives 404, from a state whose active
dataset is `"/a.zim"`. -/
theorem article_status_spec_witness :
    article (fun _ => none) (fun _ => none) ⟨0, [], some "/a.zim", []⟩ "T"
      = ⟨.internalServerError, "Failed to open ZIM archive"⟩ ∧
    article (fun _ => some ⟨fun _ => none⟩) (fun _ => none) ⟨0, [], some "/a.zim", []⟩ "T"
      = ⟨.notFound, "Article not found"⟩ :=
  ⟨article_status_spec.2.1 (fun _ => none) (fun _ => none)
      ⟨0, [], some "/a.zim", []⟩ "T" "/a.zim" rfl rfl,
   article_status_spec.2.2 (fun _ => some ⟨fun _ => none⟩) (fun _ => none)
      ⟨0, [], some "/a.zim", []⟩ "T" "/a.zim" ⟨fun _ => none⟩ rfl rfl rfl⟩

/-- C6: when deleting the stored content fails, `clean_cache` reports a
500 with the reason and leaves all three registries untouched; the
registries are cleared only when the delete succeeds. -/
theorem clean_cache_failure_spec :
    (∀ (st : AppState) (e : String),
       clean_cache true (.failure e) st =
         (st, ⟨.internalServerError, "Failed to clean cache: " ++ e⟩)) ∧
    (∀ st : AppState,
       clean_cache true .success st =
         ({ st with uploaded_files := [], current_zim_path := none, file_cache := [] },
          ⟨.ok, "Cache cleaned successfully"⟩)) ∧
    (∀ (dirExists : Bool) (d : DeleteOutcome) (st : AppState),
       (clean_cache dirExists d st).1 = st ∨ (dirExists = true ∧ d = .success)) := by
  refine ⟨fun _ _ => rfl, fun _ => rfl, ?_⟩
  intro dirExists d st
  cases dirExists with
  | false => exact Or.inl rfl
  | true =>
      cases d with
      | success => exact Or.inr ⟨rfl, rfl⟩
      | failure e => exact Or.inl rfl

/-- C10: when the storage root directory does not exist, `clean_cache`
returns 200 and leaves the whole state unchanged, whatever it holds. -/
theorem clean_cache_missing_dir_spec :
    ∀ (d : DeleteOutcome) (st : AppState),
      clean_cache false d st =
        (st, ⟨.ok, "Cache directory not found, nothing to clean"⟩) :=
  fun _ _ => rfl

/-- C3: when the first search returns zero results, `search_zim_file`
issues exactly one further search, with the lower-cased query, before
returning (an empty result when the retry also finds nothing); when the
first search finds something there is no retry; and every successful call
returns at most 50 titles, in collaborator order under the cap. -/
theorem search_retry_once_and_cap :
    (∀ (lower : String → String) (c : SearchCollab) (q : String)
       (titles trace : List String),
       search_zim_file lower c q = .ok (titles, trace) → titles.length ≤ 50) ∧
    (∀ (lower : String → String) (c : SearchCollab) (q : String),
       c.open_err = none → c.searcher_err = none →
       c.query_err q = none → c.search_err q = none → c.get_results_err q = none →
       c.results q = [] →
       c.query_err (lower q) = none → c.search_err (lower q) = none →
       c.get_results_err (lower q) = none →
       search_zim_file lower c q =
         .ok (collectTitles ((c.results (lower q)).take 50), [q, lower q])) ∧
    (∀ (lower : String → String) (c : SearchCollab) (q : String),
       c.open_err = none → c.searcher_err = none →
       c.query_err q = none → c.search_err q = none → c.get_results_err q = none →
       c.results q ≠ [] →
       search_zim_file lower c q =
         .ok (collectTitles ((c.results q).take 50), [q])) :=
  ⟨search_zim_file_ok_length_le, search_zim_file_empty_retry_eq,
   search_zim_file_nonempty_eq⟩

/-- Witness for C3: an everywhere-successful collaborator with no results
retries exactly once (trace `["Q", "q"]`) and returns the empty list; one
with a single result returns it with no retry; both satisfy the cap. -/
theorem search_retry_once_and_cap_witness :
    search_zim_file lowerQ cSearchEmpty "Q" = .ok ([], ["Q", "q"]) ∧
    search_zim_file lowerQ cSearchOne "Q" = .ok (["T"], ["Q"]) ∧
    ([] : List String).length ≤ 50 := by
  have hempty : search_zim_file lowerQ cSearchEmpty "Q" = .ok ([], ["Q", "q"]) :=
    search_retry_once_and_cap.2.1 lowerQ cSearchEmpty "Q"
      rfl rfl rfl rfl rfl rfl rfl rfl rfl
  refine ⟨hempty, ?_, ?_⟩
  · exact search_retry_once_and_cap.2.2 lowerQ cSearchOne "Q"
      rfl rfl rfl rfl rfl (by simp [cSearchOne])
  · exact search_retry_once_and_cap.1 lowerQ cSearchEmpty "Q" [] ["Q", "q"] hempty

/-- C7 counterexample: an entry-level collaborator failure (the only
search result cannot be read) is not propagated to the client at all —
`search_articles` answers with a plain 200 success carrying an empty
list, the failure silently filtered out (main.rs lines 98-106). -/
theorem search_missing_entry_not_propagated_cex :
    cEntryFail.results "Q" = [.error "entry read failed"] ∧
    search_articles (fun s => s) cEntryFail "Q" = .ok [] :=
  ⟨rfl, rfl⟩

/-- C7 (amended): archive-open and query-syntax failures are propagated
as internal-server-error responses whose bodies are always
distinguishable from one another, and browse propagates archive-open
failure likewise; but missing-entry failures are not propagated: failing
entries are silently dropped from a successful 200 result list. -/
theorem search_error_propagation :
    (∀ (lower : String → String) (c : SearchCollab) (q e : String),
       c.open_err = some e →
       search_articles lower c q =
         .failed .internalServerError ("Failed to open archive: " ++ e)) ∧
    (∀ (lower : String → String) (c : SearchCollab) (q e : String),
       c.open_err = none → c.searcher_err = none → c.query_err q = some e →
       search_articles lower c q =
         .failed .internalServerError ("Invalid query: " ++ e)) ∧
    (∀ a b : String, ("Failed to open archive: " ++ a) ≠ ("Invalid query: " ++ b)) ∧
    (∀ (c : BrowseCollab) (e : String), c.open_err = some e →
       browse_articles c =
         .failed .internalServerError ("failed to open zim file: " ++ e)) ∧
    (∀ (lower : String → String) (c : SearchCollab) (q : String),
       c.open_err = none → c.searcher_err = none → c.query_err q = none →
       c.search_err q = none → c.get_results_err q = none → c.results q ≠ [] →
       search_articles lower c q = .ok (collectTitles ((c.results q).take 50))) := by
  refine ⟨?_, ?_, open_query_msg_ne, ?_, ?_⟩
  · intro lower c q e hoe
    simp [search_articles, search_zim_file, hoe]
  · intro lower c q e h1 h2 h3
    simp [search_articles, search_zim_file, h1, h2, h3]
  · intro c e hoe
    simp [browse_articles, get_all_articles, hoe]
  · intro lower c q h1 h2 h3 h4 h5 h6
    rw [search_articles, search_zim_file_nonempty_eq lower c q h1 h2 h3 h4 h5 h6]

/-- Witness for the amended C7: the concrete failing collaborators
produce the distinguishable 500 bodies, and the entry-failure
collaborator produces a silent 200. -/
theorem search_error_propagation_witness :
    search_articles (fun s => s) cOpenFail "Q"
      = .failed .internalServerError ("Failed to open archive: " ++ "io error") ∧
    search_articles (fun s => s) cQueryFail "Q"
      = .failed .internalServerError ("Invalid query: " ++ "syntax") ∧
    ("Failed to open archive: " ++ "x") ≠ ("Invalid query: " ++ "y") ∧
    browse_articles bOpenFail
      = .failed .internalServerError ("failed to open zim file: " ++ "io error") ∧
    search_articles (fun s => s) cEntryFail "Q" = .ok [] := by
  refine ⟨?_, ?_, ?_, ?_, ?_⟩
  · exact search_error_propagation.1 (fun s => s) cOpenFail "Q" "io error" rfl
  · exact search_error_propagation.2.1 (fun s => s) cQueryFail "Q" "syntax" rfl rfl rfl
  · exact search_error_propagation.2.2.1 "x" "y"
  · exact search_error_propagation.2.2.2.1 bOpenFail "io error" rfl
  · exact search_error_propagation.2.2.2.2 (fun s => s) cEntryFail "Q"
      rfl rfl rfl rfl rfl (by simp [cEntryFail])

end ZimViewer
